import Mathlib

/-!
Shallow embedding of the core of `mqtt_display_client.py`
(speham/mqttDisplayClient): the LD2450 radar frame decoder, the per-sensor
debounced occupancy state machine, the display power command side effect,
the single-flight shell command executor, and the diff-publish logic of the
radar and shell channels.

Bytes are modelled as `Nat` (values < 256), byte buffers as `List Nat`.
Transport results (`client.publish(...).rc`) are supplied by an environment
`env : String → Nat` giving the result code of the (at most one) publish to
each topic during one step.  Log lines, transport calls, started worker
threads and power-intent invocations are recorded as an explicit event list.
-/

namespace MqttDisplay

/-- Module constant `IDLE = ">_"` (line 52). -/
def IDLE : String := ">_"

/-- Module constant `REPORT_HEADER = b'\xAA\xFF\x03\x00'` (line 59). -/
def REPORT_HEADER : List Nat := [0xAA, 0xFF, 0x03, 0x00]

/-- Module constant `REPORT_TAIL = b'\x55\xCC'` (line 60). -/
def REPORT_TAIL : List Nat := [0x55, 0xCC]

/-- Module constant `self.off_delay = 120` (line 148); the timer duration in
seconds.  Time is abstracted: a pending timer's expiry is an explicit event. -/
def off_delay : Nat := 120

/-- `int.from_bytes(two bytes, byteorder='little', signed=True)`
(lines 581-582).  Bytes are reduced mod 256. -/
def int16LE (b0 b1 : Nat) : Int :=
  let u : Nat := b0 % 256 + 256 * (b1 % 256)
  if u < 32768 then (u : Int) else (u : Int) - 65536

/-- Fuel-driven Newton iteration for the integer square root (the fuel makes
it reducible by the kernel; it is proved equal to `Nat.sqrt` below). -/
def sqrtIter (m : Nat) : Nat → Nat → Nat
  | 0, x => x
  | fuel + 1, x =>
    let next := (x + m / x) / 2
    if next < x then sqrtIter m fuel next else x

/-- Executable integer square root, equal to `Nat.sqrt`. -/
def isqrt (m : Nat) : Nat :=
  if m ≤ 1 then m else sqrtIter m m (m / 2)

/-- `round(((x**2 + y**2)**0.5), 1)` (lines 585, 590) in exact real
arithmetic, stored as tenths of a millimetre: the integer nearest to
`10 * sqrt (x^2 + y^2)`.  A tie is impossible since `(2k+1)^2 = 400(x^2+y^2)`
would equate an odd and an even number. -/
def distTenths (x y : Int) : Nat :=
  let m : Nat := (x ^ 2 + y ^ 2).toNat * 100
  let k : Nat := isqrt m
  if (2 * k + 1) ^ 2 ≤ 4 * m then k + 1 else k

/-- One tracked target (the dict built at lines 586-591).
`dist_tenths` holds `dist_mm` in tenths of a millimetre. -/
structure Target where
  id : Nat
  x_mm : Int
  y_mm : Int
  dist_tenths : Nat
deriving DecidableEq, Repr

/-- The target-parsing loop of `_parse_ld2450` (lines 576-591): three fixed
8-byte slots; slot `i` yields a target iff its `y` is non-zero. -/
def parse_targets (data : List Nat) : List Target :=
  (List.range 3).filterMap (fun i =>
    let x := int16LE (data.getD (i * 8) 0) (data.getD (i * 8 + 1) 0)
    let y := int16LE (data.getD (i * 8 + 2) 0) (data.getD (i * 8 + 3) 0)
    if y ≠ 0 then some ⟨i + 1, x, y, distTenths x y⟩ else none)

/-- `ser.read_until(REPORT_TAIL)` on an available byte stream: the shortest
prefix ending in `55 CC`, or the whole stream when no tail occurs. -/
def readUntilTail : List Nat → List Nat
  | [] => []
  | [a] => [a]
  | a :: b :: rest =>
    if a = 0x55 ∧ b = 0xCC then [a, b] else a :: readUntilTail (b :: rest)

/-- `data[i:i+4] == REPORT_HEADER`: the 4-byte header occurs at index `i`. -/
def headerAt (data : List Nat) (i : Nat) : Bool :=
  (data.drop i).take 4 == REPORT_HEADER

/-- `data.find(REPORT_HEADER)` (line 564): index of the first occurrence of
the header, `none` when absent (`REPORT_HEADER in data` false, line 563). -/
def findHeader (data : List Nat) : Option Nat :=
  (List.range data.length).find? (fun i => headerAt data i)

/-- Lines 563-567 of `_ld2450_read_thread`: find the header in the chunk,
slice the next 24 bytes, and hand them on only when exactly 24 are there. -/
def extract_frame (data : List Nat) : Option (List Nat) :=
  match findHeader data with
  | none => none
  | some i =>
    let payload := (data.drop (i + 4)).take 24
    if payload.length = 24 then some payload else none

/-- The JSON object `s["data"]` assembled at lines 640-645.  `json.dumps` with
a fixed key order is injective on these records, so the string comparison of
`_publish_ld2450` is modelled as equality of `Snapshot`s. -/
structure Snapshot where
  occupied : Bool
  occupied_delayed : Bool
  target_count : Nat
  targets : List Target
deriving DecidableEq, Repr

/-- One entry of `self.ld_sensors` (lines 150-177).  `timer` is true while an
off-delay `threading.Timer` is pending (`s["timer"] is not None`). -/
structure SensorState where
  occupied : Bool
  occupied_delayed : Bool
  timer : Bool
  last_count : Int
  pub_data : Option Snapshot
  data : Snapshot
deriving DecidableEq, Repr

/-- Initial per-sensor state (lines 151-163). -/
def initSensorState : SensorState :=
  { occupied := false
    occupied_delayed := false
    timer := false
    last_count := -1
    pub_data := none
    data := ⟨false, false, 0, []⟩ }

/-- The two configured sensor ids, the keys 1 and 2 of `self.ld_sensors`. -/
inductive SensorId where
  | one
  | two
deriving DecidableEq, Repr

/-- Topic suffix `"" if sensor_id == 1 else "_2"` (lines 650, 662). -/
def suffix : SensorId → String
  | .one => ""
  | .two => "_2"

/-- The mutable client attributes the embedded operations touch
(lines 125-139, 150-177); `unpublished` is the base class's force-resync
flag read at lines 1056 and 1095. -/
structure ClientState where
  sensor1 : SensorState
  sensor2 : SensorState
  shell_cmd : String
  published_shell_cmd : Option String
  backlight : Option String
  backlight_published : Option String
  unpublished : Bool
deriving DecidableEq, Repr

/-- `self.ld_sensors[sensor_id]`. -/
def ClientState.sensor (st : ClientState) : SensorId → SensorState
  | .one => st.sensor1
  | .two => st.sensor2

/-- Write back one sensor's state. -/
def ClientState.setSensor (st : ClientState) : SensorId → SensorState → ClientState
  | .one, s => { st with sensor1 := s }
  | .two, s => { st with sensor2 := s }

/-- `any(sensor["occupied"] for sensor in self.ld_sensors.values())`
(lines 609-611). -/
def ClientState.anyRawOccupied (st : ClientState) : Bool :=
  st.sensor1.occupied || st.sensor2.occupied

/-- Initial client state (constructor, lines 125-177). -/
def initClientState : ClientState :=
  { sensor1 := initSensorState
    sensor2 := initSensorState
    shell_cmd := IDLE
    published_shell_cmd := none
    backlight := none
    backlight_published := none
    unpublished := false }

/-- Immutable configuration the embedded operations consult: the uppercased
shell command table `topic_config["shell"]["commands"]` (lines 518-520), the
`BACKLIGHT` feature flag (lines 80-83) and `self.topic_root`. -/
structure Config where
  commands : List (String × String)
  backlightEnabled : Bool
  topic_root : String

/-- Observable effects: transport publish calls, log lines, worker-thread
starts, and the power-intent invocations of `_set_shell_cmd` made by
`_parse_ld2450` (lines 613-614). -/
inductive Event where
  | publishSnap (topic : String) (snap : Snapshot)
  | publishMsg (topic : String) (payload : String)
  | logFail (topic : String)
  | logCmdFail (err : Nat)
  | logReject (msg : String)
  | logUnknown (msg : String)
  | logDelayedOff (sid : SensorId)
  | startWorker (cmd : String)
  | powerIntent (cmd : String)
deriving DecidableEq, Repr

/-- `str.upper()` for the ASCII strings used here. -/
def pyUpper (s : String) : String :=
  ⟨s.data.map Char.toUpper⟩

/-- `str.strip()`: drop leading and trailing whitespace. -/
def pyStrip (s : String) : String :=
  ⟨((s.data.dropWhile Char.isWhitespace).reverse.dropWhile Char.isWhitespace).reverse⟩

/-- `str.capitalize()` (used at line 1057). -/
def pyCapitalize (s : String) : String :=
  match s.data with
  | [] => ⟨[]⟩
  | c :: cs => ⟨c.toUpper :: cs.map Char.toLower⟩

/-- `_publish_ld2450` (lines 665-670): publish the sensor's snapshot when it
differs from the last published one; advance `pub_data` only on transport
success (`rc == 0`); a failure is not logged. -/
def publish_ld2450 (topic : String) (rc : Nat) (sid : SensorId) (st : ClientState) :
    ClientState × List Event :=
  let s := st.sensor sid
  if some s.data ≠ s.pub_data then
    if rc = 0 then
      (st.setSensor sid { s with pub_data := some s.data }, [.publishSnap topic s.data])
    else
      (st, [.publishSnap topic s.data])
  else
    (st, [])

/-- `_publish_shell_cmd` (lines 1052-1064): publish the capitalized current
command id when it differs from the last published one or a resync is forced;
on success advance `published_shell_cmd`, otherwise log the failure. -/
def publish_shell_cmd (topic : String) (rc : Nat) (st : ClientState) :
    ClientState × List Event :=
  if some st.shell_cmd ≠ st.published_shell_cmd ∨ st.unpublished = true then
    if rc = 0 then
      ({ st with published_shell_cmd := some st.shell_cmd },
        [.publishMsg topic (pyCapitalize st.shell_cmd)])
    else
      (st, [.publishMsg topic (pyCapitalize st.shell_cmd), .logFail topic])
  else
    (st, [])

/-- `_publish_backlight` (lines 1066-1102) on the only live path (the
hardware read-back is commented out in the source, so `value` is set only
when `force_value` is given). -/
def publish_backlight (cfg : Config) (topic : String) (rc : Nat)
    (force_value : Option String) (st : ClientState) : ClientState × List Event :=
  if cfg.backlightEnabled = false then
    (st, [])
  else
    match force_value.map pyUpper with
    | none => (st, [])
    | some v =>
      if v = "" then
        (st, [])
      else if st.backlight_published ≠ some v ∨ st.unpublished = true then
        if rc = 0 then
          ({ st with backlight := some v, backlight_published := some v },
            [.publishMsg topic v])
        else
          (st, [.publishMsg topic v, .logFail topic])
      else
        (st, [])

/-- `thread_shell_cmd_func` (lines 824-834): the background worker runs the
shell command (result `err`) and resets `shell_cmd` to the idle sentinel on
both the failure and the success branch. -/
def thread_shell_cmd_func (err : Nat) (st : ClientState) : ClientState × List Event :=
  if err ≠ 0 then
    ({ st with shell_cmd := IDLE }, [.logCmdFail err])
  else
    ({ st with shell_cmd := IDLE }, [])

/-- `_set_shell_cmd` (lines 836-879): normalize the payload, reject unknown
commands; reject (log + return) when a command is already running; otherwise
sync the cached backlight state for the display aliases, record the command
as current, publish the shell topic and start the worker thread. -/
def set_shell_cmd (cfg : Config) (env : String → Nat) (msg : String)
    (st : ClientState) : ClientState × List Event :=
  let m := pyUpper (pyStrip msg)
  match cfg.commands.lookup m with
  | none => (st, [.logUnknown m])
  | some cmdStr =>
    if st.shell_cmd ≠ IDLE then
      (st, [.logReject m])
    else
      let blTopic := cfg.topic_root ++ "/backlight"
      let rBl :=
        if cfg.backlightEnabled then
          if m = "DISPLAYEIN" then
            publish_backlight cfg blTopic (env blTopic) (some "ON")
              { st with backlight := some "ON" }
          else if m = "DISPLAYAUS" then
            publish_backlight cfg blTopic (env blTopic) (some "OFF")
              { st with backlight := some "OFF" }
          else (st, [])
        else (st, [])
      let st2 := { rBl.1 with shell_cmd := m }
      let shTopic := cfg.topic_root ++ "/shell"
      let rSh := publish_shell_cmd shTopic (env shTopic) st2
      (rSh.1, rBl.2 ++ rSh.2 ++ [.startWorker cmdStr])

/-- Lines 603-637 of `_parse_ld2450`, run only when the raw occupancy of
sensor `sid` changed to `new_raw_state`: record it, recompute the aggregate
occupancy, invoke `_set_shell_cmd` with the derived display power command
(the power intent), and run the per-sensor delayed logic (cancel the pending
off-delay timer and set `occupied_delayed` on raw true; start the off-delay
timer on raw false). -/
def raw_change_block (cfg : Config) (env : String → Nat) (sid : SensorId)
    (new_raw_state : Bool) (st : ClientState) : ClientState × List Event :=
  let s := st.sensor sid
  let stA := st.setSensor sid { s with occupied := new_raw_state }
  let cmd := if stA.anyRawOccupied then "displayein" else "displayaus"
  let r := set_shell_cmd cfg env cmd stA
  let sB := r.1.sensor sid
  let sC :=
    if new_raw_state then
      let sT := { sB with timer := false }
      if sT.occupied_delayed = false then { sT with occupied_delayed := true } else sT
    else
      { sB with timer := true }
  (r.1.setSensor sid sC, Event.powerIntent cmd :: r.2)

/-- `_parse_ld2450` (lines 573-651): decode the three target slots, derive
the raw occupancy, on a raw change run `raw_change_block`, rebuild the
snapshot, and on a significant change record the count and publish. -/
def parse_ld2450 (cfg : Config) (env : String → Nat) (sid : SensorId)
    (data : List Nat) (st : ClientState) : ClientState × List Event :=
  let s := st.sensor sid
  let targets := parse_targets data
  let new_count := targets.length
  let new_raw_state : Bool := decide (0 < new_count)
  let countChanged : Bool := decide ((new_count : Int) ≠ s.last_count)
  let rawChanged : Bool := new_raw_state != s.occupied
  let rB := if rawChanged then raw_change_block cfg env sid new_raw_state st else (st, [])
  let sNow := rB.1.sensor sid
  let snap : Snapshot := ⟨sNow.occupied, sNow.occupied_delayed, new_count, targets⟩
  let st2 := rB.1.setSensor sid { sNow with data := snap }
  if countChanged || rawChanged then
    let st3 := st2.setSensor sid { st2.sensor sid with last_count := (new_count : Int) }
    let topic := cfg.topic_root ++ "/ld2450" ++ suffix sid
    let rP := publish_ld2450 topic (env topic) sid st3
    (rP.1, rB.2 ++ rP.2)
  else
    (st2, rB.2)

/-- `_delayed_off` (lines 653-663): the expiry callback of the pending
off-delay timer clears `occupied_delayed` and the timer handle, logs, and
invokes `_publish_ld2450` — without refreshing `s["data"]`. -/
def delayed_off (cfg : Config) (env : String → Nat) (sid : SensorId)
    (st : ClientState) : ClientState × List Event :=
  let s := st.sensor sid
  let st1 := st.setSensor sid { s with occupied_delayed := false, timer := false }
  let topic := cfg.topic_root ++ "/ld2450" ++ suffix sid
  let rP := publish_ld2450 topic (env topic) sid st1
  (rP.1, Event.logDelayedOff sid :: rP.2)

/-- External events driving the embedded system: a decoded 24-byte frame
arriving on a sensor's reader thread, the expiry of that sensor's pending
off-delay timer, and the completion of the shell worker thread with result
`err`. -/
inductive SysEvent where
  | frame (sid : SensorId) (data : List Nat)
  | timerFire (sid : SensorId)
  | shellDone (err : Nat)
deriving DecidableEq, Repr

/-- One step of the system.  A `timerFire` is effective only while that
sensor's timer is pending: a cancelled `threading.Timer` (lines 619-621,
629-631) never runs its callback, and an expired one runs it once
(`_delayed_off` clears the handle, line 658). -/
def stepEvent (cfg : Config) (env : String → Nat) (e : SysEvent)
    (st : ClientState) : ClientState × List Event :=
  match e with
  | .frame sid data => parse_ld2450 cfg env sid data st
  | .timerFire sid =>
    if (st.sensor sid).timer then delayed_off cfg env sid st else (st, [])
  | .shellDone err => thread_shell_cmd_func err st

/-- Run a sequence of events, keeping only the final state. -/
def runEvents (cfg : Config) (env : String → Nat) : List SysEvent → ClientState → ClientState
  | [], st => st
  | e :: rest, st => runEvents cfg env rest (stepEvent cfg env e st).1

/-- One iteration of `_ld2450_read_thread` (lines 560-567) on an available
byte stream: read until the tail marker, extract a frame, and feed it to
`_parse_ld2450`; no frame means no state change. -/
def ld2450_read_step (cfg : Config) (env : String → Nat) (sid : SensorId)
    (buf : List Nat) (st : ClientState) : ClientState × List Event :=
  match extract_frame (readUntilTail buf) with
  | some payload => parse_ld2450 cfg env sid payload st
  | none => (st, [])

/-- A power-intent event (an invocation of `_set_shell_cmd` from
`_parse_ld2450`). -/
def Event.isPowerIntent : Event → Bool
  | .powerIntent _ => true
  | _ => false

/-- A transport publish of a sensor snapshot. -/
def Event.isPublishSnap : Event → Bool
  | .publishSnap _ _ => true
  | _ => false

/-- A logged transport failure (`log.error("Failed to send message ...")`). -/
def Event.isLogFail : Event → Bool
  | .logFail _ => true
  | _ => false

/-- A started worker thread (`thread.start()`, line 877). -/
def Event.isStartWorker : Event → Bool
  | .startWorker _ => true
  | _ => false

/-- Exemplar configuration: a command table holding the two display power
aliases, backlight feature off, topic root `kiosk`. -/
def cfgEx : Config :=
  { commands := [("DISPLAYEIN", "display on"), ("DISPLAYAUS", "display off")]
    backlightEnabled := false
    topic_root := "kiosk" }

/-- Exemplar transport environment: every publish succeeds. -/
def envOk : String → Nat := fun _ => 0

/-- A 24-byte payload whose first slot holds x=100, y=200 (one target). -/
def occPayload : List Nat := [100, 0, 200, 0, 0, 0, 0, 0] ++ List.replicate 16 0

/-- The all-zero 24-byte payload (no targets). -/
def emptyPayload : List Nat := List.replicate 24 0

/-! ### `isqrt` agrees with `Nat.sqrt` -/

theorem sqrtIter_eq (m : Nat) : ∀ fuel x, x ≤ fuel → sqrtIter m fuel x = Nat.sqrt.iter m x := by
  intro fuel
  induction fuel with
  | zero =>
    intro x hx
    interval_cases x
    unfold Nat.sqrt.iter
    simp [sqrtIter]
  | succ fuel ih =>
    intro x hx
    unfold Nat.sqrt.iter
    simp only [sqrtIter]
    by_cases h : (x + m / x) / 2 < x
    · rw [if_pos h, dif_pos h, ih _ (by omega)]
    · rw [if_neg h, dif_neg h]

theorem isqrt_eq_sqrt (m : Nat) : isqrt m = Nat.sqrt m := by
  unfold isqrt Nat.sqrt
  split
  · rfl
  · exact sqrtIter_eq m m (m / 2) (Nat.div_le_self m 2)

/-! ### Structural lemmas about sensor access and record updates -/

@[simp]
theorem sensor_setSensor_same (st : ClientState) (sid : SensorId) (s : SensorState) :
    (st.setSensor sid s).sensor sid = s := by
  cases sid <;> rfl

theorem sensor_setSensor_ne (st : ClientState) {sid sid' : SensorId} (s : SensorState)
    (h : sid' ≠ sid) : (st.setSensor sid s).sensor sid' = st.sensor sid' := by
  cases sid <;> cases sid' <;> first | rfl | exact absurd rfl h

@[simp]
theorem setSensor_self (st : ClientState) (sid : SensorId) :
    st.setSensor sid (st.sensor sid) = st := by
  cases sid <;> rfl

@[simp]
theorem setSensor_shell_cmd (st : ClientState) (sid : SensorId) (s : SensorState) :
    (st.setSensor sid s).shell_cmd = st.shell_cmd := by
  cases sid <;> rfl

@[simp]
theorem setSensor_published_shell_cmd (st : ClientState) (sid : SensorId) (s : SensorState) :
    (st.setSensor sid s).published_shell_cmd = st.published_shell_cmd := by
  cases sid <;> rfl

@[simp]
theorem setSensor_backlight (st : ClientState) (sid : SensorId) (s : SensorState) :
    (st.setSensor sid s).backlight = st.backlight := by
  cases sid <;> rfl

@[simp]
theorem setSensor_backlight_published (st : ClientState) (sid : SensorId) (s : SensorState) :
    (st.setSensor sid s).backlight_published = st.backlight_published := by
  cases sid <;> rfl

@[simp]
theorem setSensor_unpublished (st : ClientState) (sid : SensorId) (s : SensorState) :
    (st.setSensor sid s).unpublished = st.unpublished := by
  cases sid <;> rfl

theorem sensor_congr {a b : ClientState} (h1 : a.sensor1 = b.sensor1)
    (h2 : a.sensor2 = b.sensor2) (sid : SensorId) : a.sensor sid = b.sensor sid := by
  cases sid
  · exact h1
  · exact h2

/-! ### Shape lemmas for the publishers -/

theorem publish_ld2450_shape (topic : String) (rc : Nat) (sid : SensorId)
    (st : ClientState) :
    ∃ pd, (publish_ld2450 topic rc sid st).1 =
      st.setSensor sid { st.sensor sid with pub_data := pd } := by
  simp only [publish_ld2450]
  split
  · split
    · exact ⟨some (st.sensor sid).data, rfl⟩
    · exact ⟨(st.sensor sid).pub_data, ((setSensor_self st sid).symm : st = _)⟩
  · exact ⟨(st.sensor sid).pub_data, ((setSensor_self st sid).symm : st = _)⟩

theorem publish_ld2450_events (topic : String) (rc : Nat) (sid : SensorId)
    (st : ClientState) :
    ∀ e ∈ (publish_ld2450 topic rc sid st).2, e = Event.publishSnap topic (st.sensor sid).data := by
  simp only [publish_ld2450]
  split
  · split <;> simp
  · simp

theorem publish_shell_cmd_shape (topic : String) (rc : Nat) (st : ClientState) :
    ∃ p, (publish_shell_cmd topic rc st).1 = { st with published_shell_cmd := p } := by
  unfold publish_shell_cmd
  split
  · split
    · exact ⟨some st.shell_cmd, rfl⟩
    · exact ⟨st.published_shell_cmd, rfl⟩
  · exact ⟨st.published_shell_cmd, rfl⟩

theorem publish_shell_cmd_events (topic : String) (rc : Nat) (st : ClientState) :
    ∀ e ∈ (publish_shell_cmd topic rc st).2,
      e = Event.publishMsg topic (pyCapitalize st.shell_cmd) ∨ e = Event.logFail topic := by
  unfold publish_shell_cmd
  split
  · split <;> simp
  · simp

theorem publish_backlight_shape (cfg : Config) (topic : String) (rc : Nat)
    (v : Option String) (st : ClientState) :
    ∃ b p, (publish_backlight cfg topic rc v st).1 =
      { st with backlight := b, backlight_published := p } := by
  unfold publish_backlight
  split
  · exact ⟨st.backlight, st.backlight_published, rfl⟩
  · split
    · exact ⟨st.backlight, st.backlight_published, rfl⟩
    · split
      · exact ⟨st.backlight, st.backlight_published, rfl⟩
      · split
        · split
          · exact ⟨_, _, rfl⟩
          · exact ⟨st.backlight, st.backlight_published, rfl⟩
        · exact ⟨st.backlight, st.backlight_published, rfl⟩

theorem publish_backlight_events (cfg : Config) (topic : String) (rc : Nat)
    (v : Option String) (st : ClientState) :
    ∀ e ∈ (publish_backlight cfg topic rc v st).2,
      (∃ p, e = Event.publishMsg topic p) ∨ e = Event.logFail topic := by
  unfold publish_backlight
  split
  · simp
  · split
    · simp
    · split
      · simp
      · split
        · split <;> simp
        · simp

@[simp]
theorem sensor_update_shell (st : ClientState) (m : String) (sid : SensorId) :
    ({ st with shell_cmd := m } : ClientState).sensor sid = st.sensor sid :=
  sensor_congr rfl rfl sid

@[simp]
theorem sensor_update_published (st : ClientState) (p : Option String) (sid : SensorId) :
    ({ st with published_shell_cmd := p } : ClientState).sensor sid = st.sensor sid :=
  sensor_congr rfl rfl sid

@[simp]
theorem sensor_update_backlight (st : ClientState) (b : Option String) (sid : SensorId) :
    ({ st with backlight := b } : ClientState).sensor sid = st.sensor sid :=
  sensor_congr rfl rfl sid

@[simp]
theorem sensor_update_backlight2 (st : ClientState) (b p : Option String) (sid : SensorId) :
    ({ st with backlight := b, backlight_published := p } : ClientState).sensor sid =
      st.sensor sid :=
  sensor_congr rfl rfl sid

@[simp]
theorem sensor_update_unpublished (st : ClientState) (b : Bool) (sid : SensorId) :
    ({ st with unpublished := b } : ClientState).sensor sid = st.sensor sid :=
  sensor_congr rfl rfl sid

theorem publish_shell_cmd_sensor (topic : String) (rc : Nat) (st : ClientState)
    (sid : SensorId) : ((publish_shell_cmd topic rc st).1).sensor sid = st.sensor sid := by
  obtain ⟨p, hp⟩ := publish_shell_cmd_shape topic rc st
  rw [hp]
  exact sensor_congr rfl rfl sid

theorem publish_backlight_sensor (cfg : Config) (topic : String) (rc : Nat)
    (v : Option String) (st : ClientState) (sid : SensorId) :
    ((publish_backlight cfg topic rc v st).1).sensor sid = st.sensor sid := by
  obtain ⟨b, p, hp⟩ := publish_backlight_shape cfg topic rc v st
  rw [hp]
  exact sensor_congr rfl rfl sid

/-! ### Lemmas about `set_shell_cmd` -/

theorem set_shell_cmd_busy (cfg : Config) (env : String → Nat) (msg : String)
    (st : ClientState) (c : String)
    (hc : cfg.commands.lookup (pyUpper (pyStrip msg)) = some c)
    (hbusy : st.shell_cmd ≠ IDLE) :
    set_shell_cmd cfg env msg st = (st, [Event.logReject (pyUpper (pyStrip msg))]) := by
  simp only [set_shell_cmd, hc, if_pos hbusy]

theorem set_shell_cmd_unknown (cfg : Config) (env : String → Nat) (msg : String)
    (st : ClientState)
    (hc : cfg.commands.lookup (pyUpper (pyStrip msg)) = none) :
    set_shell_cmd cfg env msg st = (st, [Event.logUnknown (pyUpper (pyStrip msg))]) := by
  simp only [set_shell_cmd, hc]

theorem set_shell_cmd_sensor (cfg : Config) (env : String → Nat) (msg : String)
    (st : ClientState) (sid : SensorId) :
    ((set_shell_cmd cfg env msg st).1).sensor sid = st.sensor sid := by
  simp only [set_shell_cmd]
  split
  · rfl
  · split
    · rfl
    · rw [publish_shell_cmd_sensor, sensor_update_shell]
      split
      · split
        · rw [publish_backlight_sensor, sensor_update_backlight]
        · split
          · rw [publish_backlight_sensor, sensor_update_backlight]
          · rfl
      · rfl

theorem set_shell_cmd_events (cfg : Config) (env : String → Nat) (msg : String)
    (st : ClientState) :
    ∀ e ∈ (set_shell_cmd cfg env msg st).2,
      Event.isPowerIntent e = false ∧ Event.isPublishSnap e = false := by
  simp only [set_shell_cmd]
  split
  · simp [Event.isPowerIntent, Event.isPublishSnap]
  · split
    · simp [Event.isPowerIntent, Event.isPublishSnap]
    · intro e he
      rw [List.mem_append] at he
      rcases he with he | he
      · rw [List.mem_append] at he
        rcases he with he | he
        · have hbl : (∃ p, e = Event.publishMsg (cfg.topic_root ++ "/backlight") p) ∨
              e = Event.logFail (cfg.topic_root ++ "/backlight") := by
            revert he
            split
            · split
              · exact publish_backlight_events _ _ _ _ _ e
              · split
                · exact publish_backlight_events _ _ _ _ _ e
                · intro h; exact absurd h (List.not_mem_nil e)
            · intro h; exact absurd h (List.not_mem_nil e)
          rcases hbl with ⟨p, rfl⟩ | rfl <;>
            simp [Event.isPowerIntent, Event.isPublishSnap]
        · rcases publish_shell_cmd_events _ _ _ e he with rfl | rfl <;>
            simp [Event.isPowerIntent, Event.isPublishSnap]
      · rw [List.mem_singleton] at he
        subst he
        simp [Event.isPowerIntent, Event.isPublishSnap]

/-- `find?` over `List.range` returns the least index satisfying the
predicate. -/
theorem find?_range_first {p : Nat → Bool} {n i : Nat}
    (h : (List.range n).find? p = some i) : p i = true ∧ ∀ j < i, p j = false := by
  rw [List.find?_eq_some] at h
  obtain ⟨hp, as, bs, heq, hall⟩ := h
  have hlen : as.length = i := by
    have h1 : (List.range n)[as.length]? = some i := by
      rw [heq]
      rw [List.getElem?_append_right (le_refl _)]
      simp
    have h2 : as.length < n := by
      by_contra hc
      push_neg at hc
      rw [List.getElem?_eq_none (by simpa using hc)] at h1
      cases h1
    rw [List.getElem?_range h2] at h1
    exact Option.some.inj h1
  refine ⟨hp, ?_⟩
  intro j hj
  have hjn : j < n := by
    have hin : i < n := List.mem_range.mp (List.mem_of_find?_eq_some (by
      rw [List.find?_eq_some]
      exact ⟨hp, as, bs, heq, hall⟩))
    omega
  have h1 : (List.range n)[j]? = some j := List.getElem?_range hjn
  rw [heq, List.getElem?_append_left (by omega)] at h1
  have hmem : j ∈ as := List.getElem?_mem h1
  simpa using hall j hmem

/-- A header occurrence at `i` needs at least 4 bytes from `i` on. -/
theorem headerAt_le {d : List Nat} {i : Nat} (h : headerAt d i = true) :
    i + 4 ≤ d.length := by
  unfold headerAt at h
  have heq : (d.drop i).take 4 = REPORT_HEADER := eq_of_beq h
  have hl := congrArg List.length heq
  rw [List.length_take, List.length_drop] at hl
  simp only [REPORT_HEADER, List.length_cons, List.length_nil] at hl
  omega

/-- Rounding law for the stored distance: `distTenths x y` is the integer
nearest to `10 * sqrt (x^2 + y^2)`, characterised without square roots by
`(2k-1)^2 ≤ 400(x^2+y^2) < (2k+1)^2`. -/
theorem distTenths_round (x y : Int) (hy : y ≠ 0) :
    (2 * (distTenths x y : ℤ) - 1) ^ 2 ≤ 4 * (100 * (x ^ 2 + y ^ 2)) ∧
    4 * (100 * (x ^ 2 + y ^ 2)) < (2 * (distTenths x y : ℤ) + 1) ^ 2 := by
  have hnn : (0 : ℤ) ≤ x ^ 2 + y ^ 2 := by positivity
  have hD : (((x ^ 2 + y ^ 2).toNat * 100 : ℕ) : ℤ) = 100 * (x ^ 2 + y ^ 2) := by
    push_cast [Int.toNat_of_nonneg hnn]
    ring
  have hy1 : (1 : ℤ) ≤ y ^ 2 := by
    have h1 : 1 ≤ |y| := Int.one_le_abs hy
    nlinarith [sq_abs y]
  have hsum : (1 : ℤ) ≤ x ^ 2 + y ^ 2 := by nlinarith [sq_nonneg x]
  have hD1 : (1 : ℕ) ≤ (x ^ 2 + y ^ 2).toNat * 100 := by
    have h2 : 1 ≤ (x ^ 2 + y ^ 2).toNat := by omega
    omega
  simp only [distTenths, isqrt_eq_sqrt]
  set D : Nat := (x ^ 2 + y ^ 2).toNat * 100 with hDdef
  set k := Nat.sqrt D with hk
  have hsq : (k : ℤ) * k ≤ D := by exact_mod_cast Nat.sqrt_le D
  have hlt : (D : ℤ) < (k + 1) * (k + 1) := by exact_mod_cast Nat.lt_succ_sqrt D
  have hD1' : (1 : ℤ) ≤ (D : ℤ) := by exact_mod_cast hD1
  split
  · rename_i h
    have h' : ((2 * k + 1 : ℕ) : ℤ) ^ 2 ≤ 4 * (D : ℤ) := by exact_mod_cast h
    rw [← hD]
    constructor
    · push_cast at h' ⊢
      nlinarith
    · push_cast
      nlinarith
  · rename_i h
    have h' : ¬ ((2 * k + 1 : ℕ) : ℤ) ^ 2 ≤ 4 * (D : ℤ) := by exact_mod_cast h
    push_neg at h'
    rw [← hD]
    constructor
    · rcases Nat.eq_zero_or_pos k with hk0 | hk0
      · rw [hk0]
        push_cast
        nlinarith
      · have h3 : (1 : ℤ) ≤ k := by exact_mod_cast hk0
        nlinarith
    · push_cast at h' ⊢
      nlinarith

theorem set_shell_cmd_no_intent (cfg : Config) (env : String → Nat) (msg : String)
    (st : ClientState) :
    (set_shell_cmd cfg env msg st).2.filter Event.isPowerIntent = [] :=
  List.filter_eq_nil_iff.mpr (fun e he => by
    simpa using (set_shell_cmd_events cfg env msg st e he).1)

theorem publish_ld2450_no_intent (topic : String) (rc : Nat) (sid : SensorId)
    (st : ClientState) :
    (publish_ld2450 topic rc sid st).2.filter Event.isPowerIntent = [] :=
  List.filter_eq_nil_iff.mpr (fun e he => by
    rw [publish_ld2450_events topic rc sid st e he]
    simp [Event.isPowerIntent])

theorem raw_change_block_intents (cfg : Config) (env : String → Nat) (sid : SensorId)
    (nr : Bool) (st : ClientState) :
    (raw_change_block cfg env sid nr st).2.filter Event.isPowerIntent =
      [Event.powerIntent
        (if (st.setSensor sid { st.sensor sid with occupied := nr }).anyRawOccupied
         then "displayein" else "displayaus")] := by
  simp only [raw_change_block, List.filter_cons]
  rw [set_shell_cmd_no_intent]
  simp [Event.isPowerIntent]

theorem publish_shell_cmd_shell (t : String) (rc : Nat) (st : ClientState) :
    (publish_shell_cmd t rc st).1.shell_cmd = st.shell_cmd := by
  obtain ⟨p, hp⟩ := publish_shell_cmd_shape t rc st
  rw [hp]

theorem publish_ld2450_shell (t : String) (rc : Nat) (sid : SensorId) (st : ClientState) :
    (publish_ld2450 t rc sid st).1.shell_cmd = st.shell_cmd := by
  obtain ⟨pd, hp⟩ := publish_ld2450_shape t rc sid st
  rw [hp, setSensor_shell_cmd]

theorem publish_ld2450_published (t : String) (rc : Nat) (sid : SensorId) (st : ClientState) :
    (publish_ld2450 t rc sid st).1.published_shell_cmd = st.published_shell_cmd := by
  obtain ⟨pd, hp⟩ := publish_ld2450_shape t rc sid st
  rw [hp, setSensor_published_shell_cmd]

theorem publish_ld2450_backlight (t : String) (rc : Nat) (sid : SensorId) (st : ClientState) :
    (publish_ld2450 t rc sid st).1.backlight = st.backlight := by
  obtain ⟨pd, hp⟩ := publish_ld2450_shape t rc sid st
  rw [hp, setSensor_backlight]

theorem publish_ld2450_backlight_pub (t : String) (rc : Nat) (sid : SensorId)
    (st : ClientState) :
    (publish_ld2450 t rc sid st).1.backlight_published = st.backlight_published := by
  obtain ⟨pd, hp⟩ := publish_ld2450_shape t rc sid st
  rw [hp, setSensor_backlight_published]

theorem set_shell_cmd_run (cfg : Config) (env : String → Nat) (msg : String)
    (st : ClientState) (c : String)
    (hc : cfg.commands.lookup (pyUpper (pyStrip msg)) = some c)
    (hidle : st.shell_cmd = IDLE) :
    (set_shell_cmd cfg env msg st).1.shell_cmd = pyUpper (pyStrip msg) ∧
    Event.startWorker c ∈ (set_shell_cmd cfg env msg st).2 := by
  simp only [set_shell_cmd, hc]
  rw [if_neg (by simp [hidle])]
  constructor
  · rw [publish_shell_cmd_shell]
  · simp

theorem raw_change_block_busy (cfg : Config) (env : String → Nat) (sid : SensorId)
    (nr : Bool) (st : ClientState) (cIn cAus : String)
    (hbusy : st.shell_cmd ≠ IDLE)
    (hin : cfg.commands.lookup "DISPLAYEIN" = some cIn)
    (haus : cfg.commands.lookup "DISPLAYAUS" = some cAus) :
    (raw_change_block cfg env sid nr st).1.shell_cmd = st.shell_cmd ∧
    (raw_change_block cfg env sid nr st).1.published_shell_cmd = st.published_shell_cmd ∧
    (raw_change_block cfg env sid nr st).1.backlight = st.backlight ∧
    (raw_change_block cfg env sid nr st).1.backlight_published = st.backlight_published ∧
    (raw_change_block cfg env sid nr st).2 =
      [Event.powerIntent
          (if (st.setSensor sid { st.sensor sid with occupied := nr }).anyRawOccupied
           then "displayein" else "displayaus"),
        Event.logReject
          (if (st.setSensor sid { st.sensor sid with occupied := nr }).anyRawOccupied
           then "DISPLAYEIN" else "DISPLAYAUS")] := by
  simp only [raw_change_block]
  by_cases hA : (st.setSensor sid { st.sensor sid with occupied := nr }).anyRawOccupied = true
  · rw [if_pos hA]
    have hn : pyUpper (pyStrip "displayein") = "DISPLAYEIN" := by decide
    have hb : set_shell_cmd cfg env "displayein"
        (st.setSensor sid { st.sensor sid with occupied := nr }) =
        (st.setSensor sid { st.sensor sid with occupied := nr },
          [Event.logReject "DISPLAYEIN"]) := by
      have hrej := set_shell_cmd_busy cfg env "displayein"
        (st.setSensor sid { st.sensor sid with occupied := nr }) cIn
        (by rw [hn]; exact hin) (by rw [setSensor_shell_cmd]; exact hbusy)
      rw [hn] at hrej
      exact hrej
    rw [hb]
    simp [hA]
  · rw [if_neg hA]
    have hn : pyUpper (pyStrip "displayaus") = "DISPLAYAUS" := by decide
    have hb : set_shell_cmd cfg env "displayaus"
        (st.setSensor sid { st.sensor sid with occupied := nr }) =
        (st.setSensor sid { st.sensor sid with occupied := nr },
          [Event.logReject "DISPLAYAUS"]) := by
      have hrej := set_shell_cmd_busy cfg env "displayaus"
        (st.setSensor sid { st.sensor sid with occupied := nr }) cAus
        (by rw [hn]; exact haus) (by rw [setSensor_shell_cmd]; exact hbusy)
      rw [hn] at hrej
      exact hrej
    rw [hb]
    simp [hA]

theorem raw_change_block_sensor_ne (cfg : Config) (env : String → Nat) (sid : SensorId)
    (nr : Bool) (st : ClientState) (sid' : SensorId) (h : sid' ≠ sid) :
    ((raw_change_block cfg env sid nr st).1).sensor sid' = st.sensor sid' := by
  simp only [raw_change_block]
  rw [sensor_setSensor_ne _ _ h, set_shell_cmd_sensor, sensor_setSensor_ne _ _ h]

theorem raw_change_block_delayed_self (cfg : Config) (env : String → Nat) (sid : SensorId)
    (nr : Bool) (st : ClientState) :
    ((raw_change_block cfg env sid nr st).1.sensor sid).occupied_delayed =
      ((st.sensor sid).occupied_delayed || nr) := by
  simp only [raw_change_block]
  rw [sensor_setSensor_same]
  cases nr with
  | true =>
    simp only [if_true]
    by_cases hd : ((set_shell_cmd cfg env
        (if (st.setSensor sid { st.sensor sid with occupied := true }).anyRawOccupied then
          "displayein" else "displayaus")
        (st.setSensor sid { st.sensor sid with occupied := true })).1.sensor
          sid).occupied_delayed = false
    · rw [if_pos hd]
      simp
    · rw [if_neg hd]
      rw [set_shell_cmd_sensor, sensor_setSensor_same] at hd ⊢
      simp at hd
      simp [hd]
  | false =>
    simp only [Bool.false_eq_true, if_false]
    rw [set_shell_cmd_sensor, sensor_setSensor_same]
    simp

theorem publish_ld2450_delayed (t : String) (rc : Nat) (sid : SensorId)
    (st : ClientState) (sid' : SensorId) :
    ((publish_ld2450 t rc sid st).1.sensor sid').occupied_delayed =
      (st.sensor sid').occupied_delayed := by
  obtain ⟨pd, hp⟩ := publish_ld2450_shape t rc sid st
  rw [hp]
  by_cases h : sid' = sid
  · subst h
    rw [sensor_setSensor_same]
  · rw [sensor_setSensor_ne _ _ h]

theorem publish_ld2450_sensor_ne (t : String) (rc : Nat) (sid : SensorId)
    (st : ClientState) (sid' : SensorId) (h : sid' ≠ sid) :
    ((publish_ld2450 t rc sid st).1).sensor sid' = st.sensor sid' := by
  obtain ⟨pd, hp⟩ := publish_ld2450_shape t rc sid st
  rw [hp, sensor_setSensor_ne _ _ h]

theorem parse_ld2450_sensor_ne (cfg : Config) (env : String → Nat) (sid : SensorId)
    (data : List Nat) (st : ClientState) (sid' : SensorId) (h : sid' ≠ sid) :
    ((parse_ld2450 cfg env sid data st).1).sensor sid' = st.sensor sid' := by
  simp only [parse_ld2450]
  by_cases hb : (decide (0 < (parse_targets data).length) != (st.sensor sid).occupied) = true
  · simp only [hb, Bool.or_true, if_true]
    rw [publish_ld2450_sensor_ne _ _ _ _ _ h, sensor_setSensor_ne _ _ h,
      sensor_setSensor_ne _ _ h, raw_change_block_sensor_ne _ _ _ _ _ _ h]
  · rw [Bool.not_eq_true] at hb
    simp only [hb, Bool.or_false, Bool.false_eq_true, if_false]
    split
    · rw [publish_ld2450_sensor_ne _ _ _ _ _ h, sensor_setSensor_ne _ _ h,
        sensor_setSensor_ne _ _ h]
    · rw [sensor_setSensor_ne _ _ h]

theorem parse_ld2450_delayed_self (cfg : Config) (env : String → Nat) (sid : SensorId)
    (data : List Nat) (st : ClientState) :
    ((parse_ld2450 cfg env sid data st).1.sensor sid).occupied_delayed =
      ((st.sensor sid).occupied_delayed ||
        ((decide (0 < (parse_targets data).length) != (st.sensor sid).occupied) &&
          decide (0 < (parse_targets data).length))) := by
  simp only [parse_ld2450]
  by_cases hb : (decide (0 < (parse_targets data).length) != (st.sensor sid).occupied) = true
  · simp only [hb, Bool.or_true, if_true, Bool.true_and]
    rw [publish_ld2450_delayed, sensor_setSensor_same, sensor_setSensor_same,
      raw_change_block_delayed_self]
  · rw [Bool.not_eq_true] at hb
    simp only [hb, Bool.or_false, Bool.false_eq_true, if_false, Bool.false_and,
      Bool.or_false]
    split
    · rw [publish_ld2450_delayed, sensor_setSensor_same, sensor_setSensor_same]
    · rw [sensor_setSensor_same]

theorem delayed_off_sensor_ne (cfg : Config) (env : String → Nat) (sid : SensorId)
    (st : ClientState) (sid' : SensorId) (h : sid' ≠ sid) :
    ((delayed_off cfg env sid st).1).sensor sid' = st.sensor sid' := by
  simp only [delayed_off]
  rw [publish_ld2450_sensor_ne _ _ _ _ _ h, sensor_setSensor_ne _ _ h]

theorem delayed_off_delayed_self (cfg : Config) (env : String → Nat) (sid : SensorId)
    (st : ClientState) :
    ((delayed_off cfg env sid st).1.sensor sid).occupied_delayed = false := by
  simp only [delayed_off]
  rw [publish_ld2450_delayed, sensor_setSensor_same]

/-- One system step never lowers `occupied_delayed` unless it is this
sensor's pending off-delay timer actually firing. -/
theorem step_preserves_delayed (cfg : Config) (env : String → Nat) (e : SysEvent)
    (st : ClientState) (sid : SensorId)
    (hd : (st.sensor sid).occupied_delayed = true)
    (ht : e = SysEvent.timerFire sid → (st.sensor sid).timer = false) :
    ((stepEvent cfg env e st).1.sensor sid).occupied_delayed = true := by
  cases e with
  | frame sid' data =>
    by_cases h : sid = sid'
    · subst h
      simp only [stepEvent]
      rw [parse_ld2450_delayed_self, hd]
      simp
    · simp only [stepEvent]
      rw [parse_ld2450_sensor_ne _ _ _ _ _ _ h]
      exact hd
  | timerFire sid' =>
    simp only [stepEvent]
    split
    · by_cases h : sid = sid'
      · subst h
        rename_i htimer
        rw [ht rfl] at htimer
        cases htimer
      · rw [delayed_off_sensor_ne _ _ _ _ _ h]
        exact hd
    · exact hd
  | shellDone err =>
    simp only [stepEvent, thread_shell_cmd_func]
    split <;> simpa using hd

/-! ## The claims -/

/-- The decode contract of a 24-byte payload: only `y ≠ 0` slots yield
targets; at most 3 targets; slot order (strictly increasing ids) preserved;
membership characterised by the slot bytes read as little-endian signed
16-bit integers with `id = slot + 1`; the stored distance is the rounding of
`10·√(x²+y²)`; and the result depends on the first 24 bytes only. -/
def decodeSpec (data : List Nat) : Prop :=
  (∀ t ∈ parse_targets data, t.y_mm ≠ 0) ∧
  (parse_targets data).length ≤ 3 ∧
  List.Pairwise (fun a b : Target => a.id < b.id) (parse_targets data) ∧
  (∀ t : Target, t ∈ parse_targets data ↔
    ∃ i < 3,
      int16LE (data.getD (i * 8 + 2) 0) (data.getD (i * 8 + 3) 0) ≠ 0 ∧
      t = ⟨i + 1, int16LE (data.getD (i * 8) 0) (data.getD (i * 8 + 1) 0),
            int16LE (data.getD (i * 8 + 2) 0) (data.getD (i * 8 + 3) 0),
            distTenths (int16LE (data.getD (i * 8) 0) (data.getD (i * 8 + 1) 0))
              (int16LE (data.getD (i * 8 + 2) 0) (data.getD (i * 8 + 3) 0))⟩) ∧
  (∀ t ∈ parse_targets data,
    (2 * (t.dist_tenths : ℤ) - 1) ^ 2 ≤ 4 * (100 * (t.x_mm ^ 2 + t.y_mm ^ 2)) ∧
    4 * (100 * (t.x_mm ^ 2 + t.y_mm ^ 2)) < (2 * (t.dist_tenths : ℤ) + 1) ^ 2) ∧
  (∀ data' : List Nat, (∀ j < 24, data'.getD j 0 = data.getD j 0) →
    parse_targets data' = parse_targets data)

/-- C4: for every 24-byte payload, decoding parses exactly 3 fixed 8-byte
slots; slot `i` takes `x` from bytes 0-1 and `y` from bytes 2-3 as
little-endian signed 16-bit integers; a slot yields a target iff `y ≠ 0`,
with `id = i + 1` and `dist_mm = round(√(x²+y²), 1)`; the output preserves
slot order, has length ≤ 3, never contains a `y = 0` target, and is a
deterministic function of the payload bytes. -/
theorem c4_decode (data : List Nat) (hlen : data.length = 24) : decodeSpec data := by
  clear hlen
  refine ⟨?_, ?_, ?_, ?_, ?_, ?_⟩
  · intro t ht
    simp only [parse_targets, List.mem_filterMap, List.mem_range] at ht
    obtain ⟨i, hi, hf⟩ := ht
    rw [Option.ite_none_right_eq_some, Option.some.injEq] at hf
    obtain ⟨hy, rfl⟩ := hf
    exact hy
  · exact le_trans (List.length_filterMap_le _ _) (by simp)
  · unfold parse_targets
    refine List.Pairwise.filterMap _ ?_ (List.pairwise_lt_range 3)
    intro a b hab x hx y hy
    simp only [Option.mem_def, Option.ite_none_right_eq_some, Option.some.injEq] at hx hy
    obtain ⟨-, rfl⟩ := hx
    obtain ⟨-, rfl⟩ := hy
    simpa using hab
  · intro t
    unfold parse_targets
    rw [List.mem_filterMap]
    constructor
    · rintro ⟨i, hi, hf⟩
      rw [List.mem_range] at hi
      rw [Option.ite_none_right_eq_some, Option.some.injEq] at hf
      exact ⟨i, hi, hf.1, hf.2.symm⟩
    · rintro ⟨i, hi, hy, rfl⟩
      refine ⟨i, List.mem_range.mpr hi, ?_⟩
      rw [Option.ite_none_right_eq_some, Option.some.injEq]
      exact ⟨hy, rfl⟩
  · intro t ht
    simp only [parse_targets, List.mem_filterMap, List.mem_range] at ht
    obtain ⟨i, hi, hf⟩ := ht
    rw [Option.ite_none_right_eq_some, Option.some.injEq] at hf
    obtain ⟨hy, rfl⟩ := hf
    exact distTenths_round _ _ hy
  · intro data' h
    unfold parse_targets
    apply List.filterMap_congr
    intro i hi
    rw [List.mem_range] at hi
    rw [h (i * 8) (by omega), h (i * 8 + 1) (by omega), h (i * 8 + 2) (by omega),
      h (i * 8 + 3) (by omega)]

/-- Witness for C4 at the concrete one-target payload. -/
theorem c4_decode_witness : occPayload.length = 24 ∧ decodeSpec occPayload :=
  ⟨by decide, c4_decode occPayload (by decide)⟩

/-- A buffer on which the reader decodes a frame although the tail marker
does not immediately follow the 24-byte payload: header, 24 zero bytes, two
further zero bytes, then the tail. -/
def badBuf : List Nat := REPORT_HEADER ++ List.replicate 24 0 ++ [0, 0] ++ REPORT_TAIL

/-- C5 is falsified: on `badBuf` the reader decodes a 24-byte frame although
the buffer nowhere contains header ++ payload ++ tail contiguously — the
source (lines 563-567) never checks that the tail follows the payload. -/
theorem c5_counterexample :
    extract_frame (readUntilTail badBuf) = some (List.replicate 24 0) ∧
    ¬ ∃ i < badBuf.length,
        (badBuf.drop i).take 30 = REPORT_HEADER ++ List.replicate 24 0 ++ REPORT_TAIL := by
  decide

/-- Characterisation of frame extraction from a buffer: the chunk is the
buffer truncated after the first tail marker; a frame is decoded iff the
chunk contains the header and its first occurrence leaves at least 24 bytes
in the chunk; the payload is exactly those 24 bytes (the tail position is
never checked against the payload end). -/
def frameSpec (buf : List Nat) : Prop :=
  ∀ p : List Nat,
    extract_frame (readUntilTail buf) = some p ↔
    ∃ i, findHeader (readUntilTail buf) = some i ∧
      headerAt (readUntilTail buf) i = true ∧
      (∀ j < i, headerAt (readUntilTail buf) j = false) ∧
      i + 28 ≤ (readUntilTail buf).length ∧
      p = ((readUntilTail buf).drop (i + 4)).take 24

/-- C5 (amended): a frame is decoded iff the chunk read up to the first tail
marker contains the header with at least 24 bytes after its first
occurrence; the decoded payload is exactly those 24 bytes, and the tail need
not immediately follow them.  When no frame is decoded, the read step leaves
the client state unchanged and emits nothing. -/
theorem c5_frames (cfg : Config) (env : String → Nat) (sid : SensorId)
    (buf : List Nat) (st : ClientState) :
    frameSpec buf ∧
    (extract_frame (readUntilTail buf) = none →
      ld2450_read_step cfg env sid buf st = (st, [])) := by
  constructor
  · intro p
    constructor
    · intro hex
      cases hfind : findHeader (readUntilTail buf) with
      | none =>
        simp only [extract_frame, hfind] at hex
        cases hex
      | some i =>
        simp only [extract_frame, hfind] at hex
        split at hex
        · rename_i hl
          cases hex
          obtain ⟨hAt, hFirst⟩ := find?_range_first hfind
          have h4 : i + 4 ≤ (readUntilTail buf).length := headerAt_le hAt
          rw [List.length_take, List.length_drop] at hl
          exact ⟨i, rfl, hAt, hFirst, by omega, rfl⟩
        · cases hex
    · rintro ⟨i, hfind, hAt, hFirst, hlen, rfl⟩
      simp only [extract_frame, hfind]
      rw [if_pos]
      rw [List.length_take, List.length_drop]
      omega
  · intro h
    simp [ld2450_read_step, h]

/-- Witness for C5's amended theorem at the concrete buffer `badBuf`. -/
theorem c5_frames_witness :
    frameSpec badBuf ∧
    (extract_frame (readUntilTail badBuf) = none →
      ld2450_read_step cfgEx envOk SensorId.one badBuf initClientState =
        (initClientState, [])) :=
  c5_frames cfgEx envOk SensorId.one badBuf initClientState

/-- The complete wire frame of C6: header, first slot x=100 y=200, two
all-zero slots, tail. -/
def c6Frame : List Nat :=
  REPORT_HEADER ++ ([100, 0, 200, 0] ++ List.replicate 4 0) ++
    List.replicate 16 0 ++ REPORT_TAIL

/-- C6: feeding a sensor in its initial idle state the frame
`AA FF 03 00` + slot (x=100, y=200) + two zero slots + `55 CC` publishes
exactly one snapshot, `{occupied: true, occupied_delayed: true,
target_count: 1, targets: [{id: 1, x_mm: 100, y_mm: 200, dist_mm: 223.6}]}`
(the model stores `dist_mm` in tenths: `2236`), and records it as the last
published payload. -/
theorem c6_end_to_end :
    (ld2450_read_step cfgEx envOk SensorId.one c6Frame initClientState).2.filter
        Event.isPublishSnap =
      [Event.publishSnap "kiosk/ld2450" ⟨true, true, 1, [⟨1, 100, 200, 2236⟩]⟩] ∧
    ((ld2450_read_step cfgEx envOk SensorId.one c6Frame initClientState).1.sensor
        SensorId.one).pub_data = some ⟨true, true, 1, [⟨1, 100, 200, 2236⟩]⟩ ∧
    ((2236 : ℚ) / 10) = 223.6 := by
  refine ⟨by decide, by decide, by norm_num⟩

/-- C2 (code bug): after raw occupancy true → false the off-delay timer is
pending, and on its expiry `occupied_delayed` does become false — but
`_delayed_off` (lines 653-663) never refreshes `s["data"]`, so the publish
at line 663 compares the stale snapshot (still `occupied_delayed = true`)
with the identical last-published payload and makes no transport call at
all: no snapshot reporting `occupied_delayed = false` reaches downstream,
contradicting the claim's final clause which the call to `_publish_ld2450`
in `_delayed_off` clearly intends. -/
theorem c2_timer_expiry_publishes_nothing :
    (((runEvents cfgEx envOk
          [SysEvent.frame SensorId.one occPayload, SysEvent.shellDone 0,
            SysEvent.frame SensorId.one emptyPayload, SysEvent.shellDone 0]
          initClientState).sensor SensorId.one).timer = true) ∧
    (((runEvents cfgEx envOk
          [SysEvent.frame SensorId.one occPayload, SysEvent.shellDone 0,
            SysEvent.frame SensorId.one emptyPayload, SysEvent.shellDone 0]
          initClientState).sensor SensorId.one).occupied_delayed = true) ∧
    ((stepEvent cfgEx envOk (SysEvent.timerFire SensorId.one)
        (runEvents cfgEx envOk
          [SysEvent.frame SensorId.one occPayload, SysEvent.shellDone 0,
            SysEvent.frame SensorId.one emptyPayload, SysEvent.shellDone 0]
          initClientState)).2 = [Event.logDelayedOff SensorId.one]) ∧
    (((stepEvent cfgEx envOk (SysEvent.timerFire SensorId.one)
        (runEvents cfgEx envOk
          [SysEvent.frame SensorId.one occPayload, SysEvent.shellDone 0,
            SysEvent.frame SensorId.one emptyPayload, SysEvent.shellDone 0]
          initClientState)).1.sensor SensorId.one).occupied_delayed = false) ∧
    (((stepEvent cfgEx envOk (SysEvent.timerFire SensorId.one)
        (runEvents cfgEx envOk
          [SysEvent.frame SensorId.one occPayload, SysEvent.shellDone 0,
            SysEvent.frame SensorId.one emptyPayload, SysEvent.shellDone 0]
          initClientState)).1.sensor SensorId.one).data.occupied_delayed = true) := by
  decide

/-- C1 is falsified: with sensor 1 already raw-occupied and sensor 2 idle,
sensor 2 becoming occupied leaves the aggregate occupancy set non-empty
(its emptiness is unchanged), yet the code emits a power intent — lines
603-614 invoke `_set_shell_cmd` on every per-sensor raw change, not only on
emptiness transitions. -/
theorem c1_counterexample :
    ((runEvents cfgEx envOk [SysEvent.frame SensorId.one occPayload, SysEvent.shellDone 0]
        initClientState).sensor SensorId.one).occupied = true ∧
    ((runEvents cfgEx envOk [SysEvent.frame SensorId.one occPayload, SysEvent.shellDone 0]
        initClientState).sensor SensorId.two).occupied = false ∧
    (stepEvent cfgEx envOk (SysEvent.frame SensorId.two occPayload)
        (runEvents cfgEx envOk [SysEvent.frame SensorId.one occPayload, SysEvent.shellDone 0]
          initClientState)).2.filter Event.isPowerIntent =
      [Event.powerIntent "displayein"] := by
  decide

/-- C1 (amended): processing one decoded frame emits exactly one power
intent iff the sensor's raw occupancy changed, and none otherwise; the
intent is display-on iff the aggregate raw-occupancy set over all sensors is
non-empty after the change (display-off iff it is empty).  Emptiness
transitions of the set are a special case, but any raw change of a single
sensor — including one that leaves the set non-empty — emits an intent. -/
theorem c1_power_intents (cfg : Config) (env : String → Nat) (sid : SensorId)
    (data : List Nat) (st : ClientState) :
    (parse_ld2450 cfg env sid data st).2.filter Event.isPowerIntent =
      (if (decide (0 < (parse_targets data).length) != (st.sensor sid).occupied) = true then
        [Event.powerIntent
          (if (st.setSensor sid
              { st.sensor sid with
                occupied := decide (0 < (parse_targets data).length) }).anyRawOccupied
           then "displayein" else "displayaus")]
      else []) := by
  simp only [parse_ld2450]
  by_cases hra : (decide (0 < (parse_targets data).length) != (st.sensor sid).occupied) = true
  · rw [if_pos hra, if_pos hra]
    rw [Bool.or_comm] at *
    simp only [hra, Bool.true_or, if_true]
    rw [List.filter_append, raw_change_block_intents, publish_ld2450_no_intent]
    simp
  · rw [if_neg hra, if_neg hra]
    split
    · rw [List.filter_append, publish_ld2450_no_intent]
      simp
    · simp

/-- C8 is falsified on the radar channel: with a snapshot differing from the
last published payload and a failing transport (`rc = 1`), `_publish_ld2450`
(lines 665-670) makes the transport call and does not advance `pub_data`,
but — unlike `_publish_shell_cmd` — logs nothing: the claim's "the failure
is logged" does not hold for this registered publisher. -/
theorem c8_counterexample :
    some ((initClientState.sensor SensorId.one).data) ≠
        (initClientState.sensor SensorId.one).pub_data ∧
    (publish_ld2450 "kiosk/ld2450" 1 SensorId.one initClientState).2 =
      [Event.publishSnap "kiosk/ld2450" ⟨false, false, 0, []⟩] ∧
    (publish_ld2450 "kiosk/ld2450" 1 SensorId.one initClientState).2.filter
        Event.isLogFail = [] ∧
    (publish_ld2450 "kiosk/ld2450" 1 SensorId.one initClientState).1 =
      initClientState := by
  decide

/-- C8 (amended): both publishers skip the transport call when the fresh
value equals the last published one (no resync pending), make at most one
transport call across two consecutive successful invocations with no state
change, and never advance the last-published value on a failing transport
result — so the same value is retried on the next tick; the failure is
logged by the shell publisher but silently ignored by the radar publisher. -/
theorem c8_diff_publish :
    (∀ (t : String) (rc : Nat) (sid : SensorId) (st : ClientState),
      some ((st.sensor sid).data) = (st.sensor sid).pub_data →
      publish_ld2450 t rc sid st = (st, [])) ∧
    (∀ (t : String) (rc : Nat) (sid : SensorId) (st : ClientState), rc ≠ 0 →
      (publish_ld2450 t rc sid st).1 = st ∧
      (publish_ld2450 t rc sid st).2.filter Event.isLogFail = []) ∧
    (∀ (t : String) (sid : SensorId) (st : ClientState),
      some ((st.sensor sid).data) ≠ (st.sensor sid).pub_data →
      publish_ld2450 t 0 sid st =
        (st.setSensor sid { st.sensor sid with pub_data := some ((st.sensor sid).data) },
          [Event.publishSnap t ((st.sensor sid).data)])) ∧
    (∀ (t : String) (sid : SensorId) (st : ClientState),
      (publish_ld2450 t 0 sid st).2.length +
        (publish_ld2450 t 0 sid (publish_ld2450 t 0 sid st).1).2.length ≤ 1) ∧
    (∀ (t : String) (rc : Nat) (st : ClientState),
      some st.shell_cmd = st.published_shell_cmd → st.unpublished = false →
      publish_shell_cmd t rc st = (st, [])) ∧
    (∀ (t : String) (rc : Nat) (st : ClientState), rc ≠ 0 →
      (publish_shell_cmd t rc st).1 = st ∧
      ((some st.shell_cmd ≠ st.published_shell_cmd ∨ st.unpublished = true) →
        (publish_shell_cmd t rc st).2 =
          [Event.publishMsg t (pyCapitalize st.shell_cmd), Event.logFail t])) := by
  refine ⟨?_, ?_, ?_, ?_, ?_, ?_⟩
  · intro t rc sid st h
    simp only [publish_ld2450]
    rw [if_neg (by simpa using h)]
  · intro t rc sid st hrc
    simp only [publish_ld2450]
    by_cases hd : some ((st.sensor sid).data) ≠ (st.sensor sid).pub_data
    · rw [if_pos hd, if_neg hrc]
      exact ⟨rfl, by simp [Event.isLogFail]⟩
    · rw [if_neg hd]
      exact ⟨rfl, rfl⟩
  · intro t sid st h
    simp only [publish_ld2450]
    rw [if_pos h]
    simp
  · intro t sid st
    simp only [publish_ld2450]
    by_cases h : some ((st.sensor sid).data) ≠ (st.sensor sid).pub_data
    · rw [if_pos h]
      simp
    · rw [if_neg h, if_neg h]
      simp
  · intro t rc st h hu
    simp only [publish_shell_cmd]
    rw [if_neg]
    simp [h, hu]
  · intro t rc st hrc
    simp only [publish_shell_cmd]
    by_cases hcond : some st.shell_cmd ≠ st.published_shell_cmd ∨ st.unpublished = true
    · rw [if_pos hcond, if_neg hrc]
      exact ⟨rfl, fun _ => rfl⟩
    · rw [if_neg hcond]
      exact ⟨rfl, fun hc => absurd hc hcond⟩

/-- Witness for C8's amended theorem: conjuncts instantiated at concrete
states with every hypothesis discharged. -/
theorem c8_diff_publish_witness :
    (publish_ld2450 "kiosk/ld2450" 1 SensorId.one
        { initClientState with
          sensor1 := { initSensorState with pub_data := some initSensorState.data } } =
      ({ initClientState with
          sensor1 := { initSensorState with pub_data := some initSensorState.data } }, [])) ∧
    ((publish_ld2450 "kiosk/ld2450" 1 SensorId.one initClientState).1 = initClientState ∧
      (publish_ld2450 "kiosk/ld2450" 1 SensorId.one initClientState).2.filter
        Event.isLogFail = []) ∧
    (publish_ld2450 "kiosk/ld2450" 0 SensorId.one initClientState =
      (initClientState.setSensor SensorId.one
          { initClientState.sensor SensorId.one with
            pub_data := some ((initClientState.sensor SensorId.one).data) },
        [Event.publishSnap "kiosk/ld2450" ((initClientState.sensor SensorId.one).data)])) ∧
    ((publish_ld2450 "kiosk/ld2450" 0 SensorId.one initClientState).2.length +
        (publish_ld2450 "kiosk/ld2450" 0 SensorId.one
          (publish_ld2450 "kiosk/ld2450" 0 SensorId.one initClientState).1).2.length ≤ 1) ∧
    (publish_shell_cmd "kiosk/shell" 7
        { initClientState with published_shell_cmd := some IDLE } =
      ({ initClientState with published_shell_cmd := some IDLE }, [])) ∧
    ((publish_shell_cmd "kiosk/shell" 1 initClientState).1 = initClientState ∧
      (publish_shell_cmd "kiosk/shell" 1 initClientState).2 =
        [Event.publishMsg "kiosk/shell" (pyCapitalize initClientState.shell_cmd),
          Event.logFail "kiosk/shell"]) :=
  ⟨c8_diff_publish.1 _ 1 _ _ (by decide),
    c8_diff_publish.2.1 _ _ _ _ (by decide),
    c8_diff_publish.2.2.1 _ _ _ (by decide),
    c8_diff_publish.2.2.2.1 _ _ _,
    c8_diff_publish.2.2.2.2.1 _ 7 _ (by decide) (by decide),
    (c8_diff_publish.2.2.2.2.2 _ _ _ (by decide)).1,
    (c8_diff_publish.2.2.2.2.2 _ _ _ (by decide)).2 (by decide)⟩

/-- A state whose radar snapshot equals the last published payload while a
forced resync is pending. -/
def stC9 : ClientState :=
  { initClientState with
    unpublished := true,
    sensor1 := { initSensorState with pub_data := some initSensorState.data } }

/-- C9 is falsified: with the force-resync flag set, the radar channel's
publisher makes no transport call when the snapshot equals the last
published payload — `_publish_ld2450` (lines 665-670) never consults
`self.unpublished`, unlike every other registered publisher. -/
theorem c9_counterexample :
    stC9.unpublished = true ∧
    publish_ld2450 "kiosk/ld2450" 0 SensorId.one stC9 = (stC9, []) := by
  decide

/-- C9 (amended): when the force-resync flag is set, the publishers that
consult it (shell command, backlight) publish unconditionally once even if
the value equals the last published one; the radar sensor channels ignore
the flag entirely — their transport behaviour is independent of it and
depends only on the snapshot differing from the last published payload. -/
theorem c9_resync :
    (∀ (t : String) (st : ClientState), st.unpublished = true →
      (publish_shell_cmd t 0 st).1 = { st with published_shell_cmd := some st.shell_cmd } ∧
      (publish_shell_cmd t 0 st).2 = [Event.publishMsg t (pyCapitalize st.shell_cmd)]) ∧
    (∀ (cfg : Config) (t : String) (st : ClientState) (v : String),
      st.unpublished = true → cfg.backlightEnabled = true → pyUpper v ≠ "" →
      (publish_backlight cfg t 0 (some v) st).2 = [Event.publishMsg t (pyUpper v)]) ∧
    (∀ (t : String) (rc : Nat) (sid : SensorId) (st : ClientState) (b : Bool),
      (publish_ld2450 t rc sid { st with unpublished := b }).2 =
        (publish_ld2450 t rc sid st).2) := by
  refine ⟨?_, ?_, ?_⟩
  · intro t st hu
    simp only [publish_shell_cmd]
    rw [if_pos (Or.inr hu)]
    simp
  · intro cfg t st v hu hb hv
    simp only [publish_backlight, Option.map]
    rw [if_neg (by simp [hb]), if_neg hv, if_pos (Or.inr hu)]
    simp
  · intro t rc sid st b
    simp only [publish_ld2450, sensor_update_unpublished]
    by_cases h : some ((st.sensor sid).data) ≠ (st.sensor sid).pub_data
    · rw [if_pos h, if_pos h]
      by_cases hrc : rc = 0
      · rw [if_pos hrc, if_pos hrc]
      · rw [if_neg hrc, if_neg hrc]
    · rw [if_neg h, if_neg h]

/-- Witness for C9's amended theorem at concrete resyncing states. -/
theorem c9_resync_witness :
    ((publish_shell_cmd "kiosk/shell" 0 { initClientState with unpublished := true }).1 =
        { { initClientState with unpublished := true } with
            published_shell_cmd := some IDLE } ∧
      (publish_shell_cmd "kiosk/shell" 0 { initClientState with unpublished := true }).2 =
        [Event.publishMsg "kiosk/shell" (pyCapitalize IDLE)]) ∧
    ((publish_backlight ⟨[], true, "kiosk"⟩ "kiosk/backlight" 0 (some "on")
        { initClientState with unpublished := true }).2 =
      [Event.publishMsg "kiosk/backlight" (pyUpper "on")]) ∧
    ((publish_ld2450 "kiosk/ld2450" 0 SensorId.one
        { stC9 with unpublished := true }).2 =
      (publish_ld2450 "kiosk/ld2450" 0 SensorId.one stC9).2) :=
  ⟨c9_resync.1 _ _ (by decide),
    c9_resync.2.1 ⟨[], true, "kiosk"⟩ _ _ "on" (by decide) (by decide) (by decide),
    c9_resync.2.2 _ 0 _ stC9 true⟩

/-- C7: the shell executor is single-flight.  The current run is a single
global field, so at most one command id is non-idle at any time by
construction; a known command arriving while `shell_cmd ≠ IDLE` is rejected
with a log line and the whole state — in particular the current command —
is unchanged; from idle, the normalized command id is recorded as current
and a worker thread is started with the configured command string; and the
worker resets the id to the idle sentinel on completion for every result
code, success or failure. -/
theorem c7_single_flight :
    (∀ (cfg : Config) (env : String → Nat) (msg : String) (st : ClientState) (c : String),
      cfg.commands.lookup (pyUpper (pyStrip msg)) = some c → st.shell_cmd ≠ IDLE →
      set_shell_cmd cfg env msg st = (st, [Event.logReject (pyUpper (pyStrip msg))])) ∧
    (∀ (cfg : Config) (env : String → Nat) (msg : String) (st : ClientState) (c : String),
      cfg.commands.lookup (pyUpper (pyStrip msg)) = some c → st.shell_cmd = IDLE →
      ((set_shell_cmd cfg env msg st).1.shell_cmd = pyUpper (pyStrip msg) ∧
        Event.startWorker c ∈ (set_shell_cmd cfg env msg st).2)) ∧
    (∀ (err : Nat) (st : ClientState), (thread_shell_cmd_func err st).1.shell_cmd = IDLE) := by
  refine ⟨?_, ?_, ?_⟩
  · intro cfg env msg st c hc hbusy
    exact set_shell_cmd_busy cfg env msg st c hc hbusy
  · intro cfg env msg st c hc hidle
    exact set_shell_cmd_run cfg env msg st c hc hidle
  · intro err st
    simp only [thread_shell_cmd_func]
    split <;> rfl

/-- Witness for C7: rejection while busy, start from idle, and reset on a
failing completion, at concrete inputs. -/
theorem c7_single_flight_witness :
    set_shell_cmd cfgEx envOk "displayein" { initClientState with shell_cmd := "DISPLAYAUS" } =
      ({ initClientState with shell_cmd := "DISPLAYAUS" },
        [Event.logReject (pyUpper (pyStrip "displayein"))]) ∧
    ((set_shell_cmd cfgEx envOk "displayein" initClientState).1.shell_cmd =
        pyUpper (pyStrip "displayein") ∧
      Event.startWorker "display on" ∈
        (set_shell_cmd cfgEx envOk "displayein" initClientState).2) ∧
    (thread_shell_cmd_func 5 initClientState).1.shell_cmd = IDLE :=
  ⟨c7_single_flight.1 cfgEx envOk "displayein" _ "display on" (by decide) (by decide),
    c7_single_flight.2.1 cfgEx envOk "displayein" initClientState "display on"
      (by decide) (by decide),
    c7_single_flight.2.2 5 initClientState⟩

/-- C10: with some shell command running (`shell_cmd ≠ IDLE`) and the display
aliases configured, a raw-occupancy change on any sensor routes the derived
power command into `_set_shell_cmd`, where the single-flight guard rejects
it with an already-running log line; no worker thread is started and the
current command id, the cached backlight state, and the (immutable,
config-owned) command table are unchanged. -/
theorem c10_busy_guard (cfg : Config) (env : String → Nat) (sid : SensorId)
    (data : List Nat) (st : ClientState) (cIn cAus : String)
    (hbusy : st.shell_cmd ≠ IDLE)
    (hin : cfg.commands.lookup "DISPLAYEIN" = some cIn)
    (haus : cfg.commands.lookup "DISPLAYAUS" = some cAus)
    (hraw : (decide (0 < (parse_targets data).length) != (st.sensor sid).occupied) = true) :
    (parse_ld2450 cfg env sid data st).1.shell_cmd = st.shell_cmd ∧
    (parse_ld2450 cfg env sid data st).1.published_shell_cmd = st.published_shell_cmd ∧
    (parse_ld2450 cfg env sid data st).1.backlight = st.backlight ∧
    (parse_ld2450 cfg env sid data st).1.backlight_published = st.backlight_published ∧
    (∀ c : String, Event.startWorker c ∉ (parse_ld2450 cfg env sid data st).2) ∧
    Event.logReject
        (if (st.setSensor sid { st.sensor sid with
            occupied := decide (0 < (parse_targets data).length) }).anyRawOccupied
         then "DISPLAYEIN" else "DISPLAYAUS") ∈ (parse_ld2450 cfg env sid data st).2 := by
  obtain ⟨h1, h2, h3, h4, hev⟩ := raw_change_block_busy cfg env sid
    (decide (0 < (parse_targets data).length)) st cIn cAus hbusy hin haus
  simp only [parse_ld2450]
  rw [Bool.or_comm]
  simp only [hraw, Bool.true_or, if_true]
  refine ⟨?_, ?_, ?_, ?_, ?_, ?_⟩
  · rw [publish_ld2450_shell, setSensor_shell_cmd, setSensor_shell_cmd, h1]
  · rw [publish_ld2450_published, setSensor_published_shell_cmd,
      setSensor_published_shell_cmd, h2]
  · rw [publish_ld2450_backlight, setSensor_backlight, setSensor_backlight, h3]
  · rw [publish_ld2450_backlight_pub, setSensor_backlight_published,
      setSensor_backlight_published, h4]
  · intro c hc
    rw [List.mem_append] at hc
    rcases hc with hc | hc
    · rw [hev] at hc
      simp at hc
    · have hsnap := publish_ld2450_events _ _ _ _ _ hc
      cases hsnap
  · rw [List.mem_append]
    left
    rw [hev]
    simp

/-- Witness for C10: a busy executor, the exemplar command table, and a
sensor-one frame that flips raw occupancy. -/
theorem c10_busy_guard_witness :
    (parse_ld2450 cfgEx envOk SensorId.one occPayload
        { initClientState with shell_cmd := "DISPLAYEIN" }).1.shell_cmd =
      ({ initClientState with shell_cmd := "DISPLAYEIN" } : ClientState).shell_cmd ∧
    (parse_ld2450 cfgEx envOk SensorId.one occPayload
        { initClientState with shell_cmd := "DISPLAYEIN" }).1.published_shell_cmd =
      ({ initClientState with shell_cmd := "DISPLAYEIN" } : ClientState).published_shell_cmd ∧
    (parse_ld2450 cfgEx envOk SensorId.one occPayload
        { initClientState with shell_cmd := "DISPLAYEIN" }).1.backlight =
      ({ initClientState with shell_cmd := "DISPLAYEIN" } : ClientState).backlight ∧
    (parse_ld2450 cfgEx envOk SensorId.one occPayload
        { initClientState with shell_cmd := "DISPLAYEIN" }).1.backlight_published =
      ({ initClientState with shell_cmd := "DISPLAYEIN" } : ClientState).backlight_published ∧
    (∀ c : String, Event.startWorker c ∉
      (parse_ld2450 cfgEx envOk SensorId.one occPayload
        { initClientState with shell_cmd := "DISPLAYEIN" }).2) ∧
    Event.logReject
        (if (({ initClientState with shell_cmd := "DISPLAYEIN" } : ClientState).setSensor
            SensorId.one
            { ({ initClientState with shell_cmd := "DISPLAYEIN" } : ClientState).sensor
                SensorId.one with
              occupied := decide (0 < (parse_targets occPayload).length) }).anyRawOccupied
         then "DISPLAYEIN" else "DISPLAYAUS") ∈
      (parse_ld2450 cfgEx envOk SensorId.one occPayload
        { initClientState with shell_cmd := "DISPLAYEIN" }).2 :=
  c10_busy_guard cfgEx envOk SensorId.one occPayload
    { initClientState with shell_cmd := "DISPLAYEIN" } "display on" "display off"
    (by decide) (by decide) (by decide) (by decide)

/-- The state of sensor 1 after its first occupied frame and the worker
completing: raw and debounced occupancy both true, no pending timer. -/
def stAfterOcc : ClientState :=
  runEvents cfgEx envOk [SysEvent.frame SensorId.one occPayload, SysEvent.shellDone 0]
    initClientState

/-- C3: over any per-sensor sequence of decoded frames and timer events,
(1) starting from `occupied_delayed = true`, if every timer-expiry event for
this sensor arrives while no off-delay timer is pending (i.e. the pending
timer was always cancelled by a new raw-true frame before the configured
delay elapsed — in particular in any true→false→true raw sequence whose
second true precedes the expiry), then `occupied_delayed` stays true at
every prefix of the run; and (2) `occupied_delayed` transitions false→true
in a step only when that step is a decoded frame for this sensor whose raw
occupancy is true while the stored raw occupancy was false. -/
theorem c3_debounce :
    (∀ (cfg : Config) (env : String → Nat) (sid : SensorId) (evs : List SysEvent)
        (st : ClientState),
      (st.sensor sid).occupied_delayed = true →
      (∀ i, i < evs.length → evs.getD i (SysEvent.shellDone 0) = SysEvent.timerFire sid →
        ((runEvents cfg env (evs.take i) st).sensor sid).timer = false) →
      ∀ i, ((runEvents cfg env (evs.take i) st).sensor sid).occupied_delayed = true) ∧
    (∀ (cfg : Config) (env : String → Nat) (sid : SensorId) (e : SysEvent)
        (st : ClientState),
      (st.sensor sid).occupied_delayed = false →
      ((stepEvent cfg env e st).1.sensor sid).occupied_delayed = true →
      ∃ data, e = SysEvent.frame sid data ∧ (st.sensor sid).occupied = false ∧
        0 < (parse_targets data).length) := by
  constructor
  · intro cfg env sid evs
    induction evs with
    | nil =>
      intro st hd _ i
      simpa [runEvents] using hd
    | cons e rest ih =>
      intro st hd ht i
      cases i with
      | zero =>
        simpa [runEvents] using hd
      | succ j =>
        rw [List.take_succ_cons]
        have hstep : runEvents cfg env (e :: rest.take j) st =
            runEvents cfg env (rest.take j) (stepEvent cfg env e st).1 := rfl
        rw [hstep]
        apply ih
        · apply step_preserves_delayed cfg env e st sid hd
          intro he
          have h0 := ht 0 (by simp) (by simpa using he)
          simpa [runEvents] using h0
        · intro k hk hget
          have hk1 := ht (k + 1) (by simpa using hk) (by simpa using hget)
          rw [List.take_succ_cons] at hk1
          exact hk1
  · intro cfg env sid e st h0 h1
    cases e with
    | frame sid' data =>
      by_cases h : sid' = sid
      · subst h
        simp only [stepEvent] at h1
        rw [parse_ld2450_delayed_self, h0, Bool.false_or, Bool.and_eq_true] at h1
        obtain ⟨hne, hnr⟩ := h1
        rw [hnr] at hne
        refine ⟨data, rfl, ?_, ?_⟩
        · revert hne
          cases hocc : (st.sensor sid').occupied <;> simp
        · exact of_decide_eq_true hnr
      · simp only [stepEvent] at h1
        rw [parse_ld2450_sensor_ne _ _ _ _ _ _ (fun hc => h hc.symm), h0] at h1
        cases h1
    | timerFire sid' =>
      simp only [stepEvent] at h1
      by_cases h : sid' = sid
      · subst h
        split at h1
        · rw [delayed_off_delayed_self] at h1
          cases h1
        · rw [h0] at h1
          cases h1
      · split at h1
        · rw [delayed_off_sensor_ne _ _ _ _ _ (fun hc => h hc.symm), h0] at h1
          cases h1
        · rw [h0] at h1
          cases h1
    | shellDone err =>
      simp only [stepEvent, thread_shell_cmd_func] at h1
      split at h1 <;> (rw [sensor_update_shell, h0] at h1; cases h1)

/-- Witness for C3: a concrete true→false→true raw sequence on sensor 1
with no timer expiry in between keeps `occupied_delayed` true, and the
initial false→true flip happens on the raw-true frame. -/
theorem c3_debounce_witness :
    ((runEvents cfgEx envOk
        ([SysEvent.frame SensorId.one emptyPayload,
          SysEvent.frame SensorId.one occPayload].take 2)
        stAfterOcc).sensor SensorId.one).occupied_delayed = true ∧
    (∃ data, SysEvent.frame SensorId.one occPayload = SysEvent.frame SensorId.one data ∧
      (initClientState.sensor SensorId.one).occupied = false ∧
      0 < (parse_targets data).length) :=
  ⟨c3_debounce.1 cfgEx envOk SensorId.one
      [SysEvent.frame SensorId.one emptyPayload, SysEvent.frame SensorId.one occPayload]
      stAfterOcc (by decide) (by decide) 2,
    c3_debounce.2 cfgEx envOk SensorId.one (SysEvent.frame SensorId.one occPayload)
      initClientState (by decide) (by decide)⟩

end MqttDisplay
